import Mathlib

/-!
Shallow embedding of the project-creation intake screen
(`src/frontend/src/pages/Home.tsx`) of banana-slides.

The state hooks of the React component become an explicit state record;
each event handler becomes a pure function from state (plus the
outcomes of the external calls it awaits) to the new state together
with the observable effects (toasts shown, project-service call made,
navigation performed).
-/

namespace BananaSlides

/-- A saved template record returned by the catalog
(`UserTemplate` in `src/api/endpoints`). -/
structure UserTemplate where
  template_id : String
  name : String
  template_image_url : String
deriving DecidableEq, Repr, BEq

/-- A browser `File` value: payload bytes, MIME type, filename. -/
structure FileData where
  bytes : List Nat
  type : String
  fname : String
deriving DecidableEq, Repr, BEq

/-- A toast notification passed to `show({message, type})`. -/
structure Toast where
  message : String
  type : String
deriving DecidableEq, Repr

/-- The template-selection state of the screen: the `selectedTemplate`
(local `File`), `selectedTemplateId` (saved template) and
`userTemplates` (catalog snapshot) `useState` hooks of `Home`. -/
structure TemplateState where
  selectedTemplate : Option FileData
  selectedTemplateId : Option String
  userTemplates : List UserTemplate
deriving DecidableEq, Repr

/-- The initial state of the hooks: `useState<File | null>(null)`,
`useState<string | null>(null)`, `useState<UserTemplate[]>([])`. -/
def initState : TemplateState :=
  { selectedTemplate := none, selectedTemplateId := none, userTemplates := [] }

/-- Embeds `handleSelectUserTemplate` (Home.tsx lines 91-94): select a saved
template and clear the local-file selection. -/
def handleSelectUserTemplate (s : TemplateState) (t : UserTemplate) : TemplateState :=
  { s with selectedTemplateId := some t.template_id, selectedTemplate := none }

/-- Embeds `handleRemoveTemplate` (Home.tsx lines 96-99): clear both the saved
template id and the local file. -/
def handleRemoveTemplate (s : TemplateState) : TemplateState :=
  { s with selectedTemplateId := none, selectedTemplate := none }

/-- Outcome of `api.uploadUserTemplate(file)` as observed by the handler:
the call resolves with `response.data` present, resolves with it absent,
or rejects with an error whose `message` may be missing or empty. -/
inductive UploadOutcome where
  | success (t : UserTemplate)
  | successNoData
  | failure (msg : Option String)
deriving DecidableEq, Repr

/-- JavaScript truthiness fallback used for the upload error message
(`error.message || fallback`): `undefined` and the empty string both
fall back. -/
def jsMessageOr (msg : Option String) (fallback : String) : String :=
  match msg with
  | none => fallback
  | some m => if m = "" then fallback else m

/-- Embeds `handleTemplateUpload` (Home.tsx lines 71-89): if the event carries a
file, upload it; on success with data, prepend the returned record to the
snapshot, auto-select it and clear the local file; on failure, show an
error toast and leave the state untouched. Returns the new state and the
toasts shown. -/
def handleTemplateUpload (s : TemplateState) (file : Option FileData)
    (outcome : UploadOutcome) : TemplateState × List Toast :=
  match file with
  | none => (s, [])
  | some _ =>
    match outcome with
    | UploadOutcome.success t =>
        ({ s with userTemplates := t :: s.userTemplates,
                  selectedTemplateId := some t.template_id,
                  selectedTemplate := none },
         [{ message := "模板上传成功", type := "success" }])
    | UploadOutcome.successNoData => (s, [])
    | UploadOutcome.failure msg =>
        (s, [{ message := "模板上传失败: " ++ jsMessageOr msg "未知错误",
               type := "error" }])

/-- The blob produced by `response.blob()` after a successful `fetch`:
payload bytes and the content type reported by the fetch. -/
structure FetchedBlob where
  bytes : List Nat
  type : String
deriving DecidableEq, Repr

/-- Outcome of `fetch(imageUrl)` followed by `response.blob()`:
a blob, or a thrown error (network or read). -/
inductive FetchOutcome where
  | success (blob : FetchedBlob)
  | failure
deriving DecidableEq, Repr

/-- Outcome of `await initializeProject(...)`: resolves, or rejects
(the store itself surfaces the error toast). -/
inductive InitOutcome where
  | success
  | failure (msg : String)
deriving DecidableEq, Repr

/-- The external world one `handleSubmit` run interacts with: the outcome
of the template-image fetch (if one happens), the outcome of the project
initialization, and `localStorage.getItem` of the shared key
`currentProjectId` after initialization returns (`none` = absent). -/
structure SubmitEnv where
  fetchOutcome : FetchOutcome
  initOutcome : InitOutcome
  currentProjectId : Option String
deriving DecidableEq, Repr

/-- JavaScript `String.prototype.trim()`: drop whitespace from both ends
of the string (structural recursion over the character list). -/
def jsTrim (s : String) : String :=
  String.mk
    (((s.data.dropWhile Char.isWhitespace).reverse.dropWhile
        Char.isWhitespace).reverse)

/-- JavaScript truthiness of an optional string: `null`/`undefined` and
the empty string are falsy. -/
def jsTruthy (s : Option String) : Bool :=
  match s with
  | none => false
  | some v => !(v = "")

/-- Home.tsx lines 109-128: compute the `templateFile` argument. Start
from `selectedTemplate || undefined`; when a saved template is selected
and no local file is held, look the record up in the snapshot by id and,
if found, fetch its image and wrap the blob as
a `File` named template.png whose type is the blob type; a fetch
failure is caught and leaves `templateFile` undefined. Returns the
resolved file and whether a fetch was attempted (a record was found). -/
def resolveTemplateFile (s : TemplateState) (fetchOutcome : FetchOutcome) :
    Option FileData × Bool :=
  match s.selectedTemplate with
  | some f => (some f, false)
  | none =>
    if jsTruthy s.selectedTemplateId then
      match s.selectedTemplateId with
      | none => (none, false)
      | some tid =>
        match s.userTemplates.find? (fun t => t.template_id == tid) with
        | none => (none, false)
        | some _ =>
          match fetchOutcome with
          | FetchOutcome.failure => (none, true)
          | FetchOutcome.success blob =>
              (some { bytes := blob.bytes, type := blob.type,
                      fname := "template.png" }, true)
    else (none, false)

/-- The arguments of the `initializeProject(activeTab, content,
templateFile)` call. -/
structure InitCall where
  creationType : String
  content : String
  templateFile : Option FileData
deriving DecidableEq, Repr

/-- How one `handleSubmit` run ends. -/
inductive SubmitResult where
  | validationError (toast : Toast)
  | initFailed
  | projectIdMissing (toast : Toast)
  | navigated (target : String)
deriving DecidableEq, Repr

/-- Observable trace of one `handleSubmit` run: whether the template
image fetch was attempted, the project-service call made (if any), and
the final outcome. -/
structure SubmitTrace where
  fetchAttempted : Bool
  initCall : Option InitCall
  result : SubmitResult
deriving DecidableEq, Repr

/-- The creation tabs (`type CreationType` in Home.tsx). -/
inductive CreationType where
  | idea
  | outline
  | description
deriving DecidableEq, Repr

/-- The `activeTab` value as the string passed to `initializeProject`. -/
def CreationType.toTag : CreationType → String
  | CreationType.idea => "idea"
  | CreationType.outline => "outline"
  | CreationType.description => "description"

/-- Embeds `handleSubmit` (Home.tsx lines 101-148): reject blank content with an
error toast; resolve the template reference (failures degrade to no
file); call `initializeProject`; on success read `currentProjectId` from
localStorage, show a generic error when it is absent (or empty, hence
falsy), otherwise navigate by creation type. -/
def handleSubmit (activeTab : CreationType) (content : String)
    (s : TemplateState) (env : SubmitEnv) : SubmitTrace :=
  if jsTrim content = "" then
    { fetchAttempted := false, initCall := none,
      result := SubmitResult.validationError
        { message := "请输入内容", type := "error" } }
  else
    let resolved := resolveTemplateFile s env.fetchOutcome
    let call : InitCall :=
      { creationType := activeTab.toTag, content := content,
        templateFile := resolved.1 }
    match env.initOutcome with
    | InitOutcome.failure _ =>
        { fetchAttempted := resolved.2, initCall := some call,
          result := SubmitResult.initFailed }
    | InitOutcome.success =>
        match env.currentProjectId with
        | none =>
            { fetchAttempted := resolved.2, initCall := some call,
              result := SubmitResult.projectIdMissing
                { message := "项目创建失败", type := "error" } }
        | some pid =>
            if pid = "" then
              { fetchAttempted := resolved.2, initCall := some call,
                result := SubmitResult.projectIdMissing
                  { message := "项目创建失败", type := "error" } }
            else
              match activeTab with
              | CreationType.idea =>
                  { fetchAttempted := resolved.2, initCall := some call,
                    result := SubmitResult.navigated
                      ("/project/" ++ pid ++ "/outline") }
              | CreationType.outline =>
                  { fetchAttempted := resolved.2, initCall := some call,
                    result := SubmitResult.navigated
                      ("/project/" ++ pid ++ "/outline") }
              | CreationType.description =>
                  { fetchAttempted := resolved.2, initCall := some call,
                    result := SubmitResult.navigated
                      ("/project/" ++ pid ++ "/detail") }

/-- Modelled from the spec: `selectLocalFile(file)` (§4.2) — no handler
under src/ ever sets the local-file selection, so this operation is
absent from the source; per the spec it sets the `LocalFile` variant and
clears any `SavedTemplate` selection. -/
def selectLocalFile (s : TemplateState) (f : FileData) : TemplateState :=
  { s with selectedTemplate := some f, selectedTemplateId := none }

/-- The template-selection operations present in the source code:
selecting a saved template, an upload attempt, and removal. -/
inductive ScreenAction where
  | selectSaved (t : UserTemplate)
  | upload (file : Option FileData) (outcome : UploadOutcome)
  | remove
deriving Repr

/-- Apply one code-level selection operation to the state. -/
def applyScreenAction (s : TemplateState) : ScreenAction → TemplateState
  | ScreenAction.selectSaved t => handleSelectUserTemplate s t
  | ScreenAction.upload file outcome => (handleTemplateUpload s file outcome).1
  | ScreenAction.remove => handleRemoveTemplate s

/-- Run a sequence of code-level selection operations. -/
def runScreen (s : TemplateState) : List ScreenAction → TemplateState
  | [] => s
  | a :: rest => runScreen (applyScreenAction s a) rest

/-- The selection operations of the claimed invariant: the code-level
operations plus the spec-modelled `selectLocalFile`. -/
inductive SelectionAction where
  | selectLocal (f : FileData)
  | selectSaved (t : UserTemplate)
  | upload (file : Option FileData) (outcome : UploadOutcome)
  | remove
deriving Repr

/-- Apply one selection action (including the spec-modelled local-file
selection) to the state. -/
def applySelectionAction (s : TemplateState) : SelectionAction → TemplateState
  | SelectionAction.selectLocal f => selectLocalFile s f
  | SelectionAction.selectSaved t => handleSelectUserTemplate s t
  | SelectionAction.upload file outcome => (handleTemplateUpload s file outcome).1
  | SelectionAction.remove => handleRemoveTemplate s

/-- Run a sequence of selection actions. -/
def runSelection (s : TemplateState) : List SelectionAction → TemplateState
  | [] => s
  | a :: rest => runSelection (applySelectionAction s a) rest

/-- At most one template source is active: the local file and the saved
template id are never both set. -/
def exclusiveSelection (s : TemplateState) : Prop :=
  s.selectedTemplate = none ∨ s.selectedTemplateId = none

/-- The template asset of a submission trace is never directly-held local
bytes: either the project-service call was not made, or it carried no
template file, or it carried the file freshly built from the fetched
blob. -/
def assetFromFetchOrAbsent (env : SubmitEnv) : Option InitCall → Prop
  | none => True
  | some c =>
      c.templateFile = none ∨
      ∃ blob, env.fetchOutcome = FetchOutcome.success blob ∧
        c.templateFile = some
          { bytes := blob.bytes, type := blob.type, fname := "template.png" }

/-- Follows the wording of the spec (§4.3): the synthetic filename
`template.<ext>` built from the extension of the image reference
(the part after the last dot). Compared against the filename
the source actually uses. -/
def specSyntheticFilename (imageUrl : String) : String :=
  "template." ++
    String.mk ((imageUrl.data.reverse.takeWhile (fun c => !(c == '.'))).reverse)

/-! ## Helper lemmas -/

lemma exclusiveSelection_apply (s : TemplateState) (a : SelectionAction)
    (h : exclusiveSelection s) : exclusiveSelection (applySelectionAction s a) := by
  cases a with
  | selectLocal f => exact Or.inr rfl
  | selectSaved t => exact Or.inl rfl
  | upload file outcome =>
    cases file with
    | none => exact h
    | some f =>
      cases outcome with
      | success t => exact Or.inl rfl
      | successNoData => exact h
      | failure msg => exact h
  | remove => exact Or.inl rfl

lemma exclusiveSelection_run (acts : List SelectionAction) :
    ∀ s, exclusiveSelection s → exclusiveSelection (runSelection s acts) := by
  induction acts with
  | nil => exact fun s h => h
  | cons a rest ih => exact fun s h => ih _ (exclusiveSelection_apply s a h)

lemma screen_local_none_apply (s : TemplateState) (a : ScreenAction)
    (h : s.selectedTemplate = none) :
    (applyScreenAction s a).selectedTemplate = none := by
  cases a with
  | selectSaved t => rfl
  | upload file outcome =>
    cases file with
    | none => exact h
    | some f =>
      cases outcome with
      | success t => rfl
      | successNoData => exact h
      | failure msg => exact h
  | remove => rfl

lemma screen_local_none_run (acts : List ScreenAction) :
    ∀ s, s.selectedTemplate = none → (runScreen s acts).selectedTemplate = none := by
  induction acts with
  | nil => exact fun s h => h
  | cons a rest ih => exact fun s h => ih _ (screen_local_none_apply s a h)

lemma handleSubmit_initCall (tab : CreationType) (content : String)
    (s : TemplateState) (env : SubmitEnv) (hc : ¬ jsTrim content = "") :
    (handleSubmit tab content s env).initCall =
      some { creationType := tab.toTag, content := content,
             templateFile := (resolveTemplateFile s env.fetchOutcome).1 } := by
  obtain ⟨fo, io, cp⟩ := env
  cases io with
  | failure msg => simp [handleSubmit, hc]
  | success =>
    cases cp with
    | none => simp [handleSubmit, hc]
    | some pid =>
      by_cases hp : pid = "" <;> cases tab <;> simp [handleSubmit, hc, hp]

lemma handleSubmit_navigated_of (tab : CreationType) (content : String)
    (s : TemplateState) (env : SubmitEnv) (pid : String)
    (hc : ¬ jsTrim content = "") (hio : env.initOutcome = InitOutcome.success)
    (hcp : env.currentProjectId = some pid) (hp : ¬ pid = "") :
    (handleSubmit tab content s env).result =
      SubmitResult.navigated ("/project/" ++ pid ++
        (match tab with
         | CreationType.description => "/detail"
         | _ => "/outline")) := by
  obtain ⟨fo, io, cp⟩ := env
  simp only at hio hcp
  subst hio; subst hcp
  cases tab <;> simp [handleSubmit, hc, hp]

lemma resolve_none_of_fail (s : TemplateState) (fo : FetchOutcome) (tid : String)
    (h1 : s.selectedTemplate = none) (h2 : s.selectedTemplateId = some tid)
    (h3 : s.userTemplates.find? (fun t => t.template_id == tid) = none ∨
          fo = FetchOutcome.failure) :
    (resolveTemplateFile s fo).1 = none := by
  by_cases htid : tid = ""
  · simp [resolveTemplateFile, h1, h2, jsTruthy, htid]
  · rcases h3 with hfind | hfo
    · simp [resolveTemplateFile, h1, h2, jsTruthy, htid, hfind]
    · subst hfo
      cases hf : s.userTemplates.find? (fun t => t.template_id == tid) with
      | none => simp [resolveTemplateFile, h1, h2, jsTruthy, htid, hf]
      | some t => simp [resolveTemplateFile, h1, h2, jsTruthy, htid, hf]

lemma resolve_from_fetch (s : TemplateState) (fo : FetchOutcome)
    (h : s.selectedTemplate = none) :
    (resolveTemplateFile s fo).1 = none ∨
    ∃ blob, fo = FetchOutcome.success blob ∧
      (resolveTemplateFile s fo).1 =
        some { bytes := blob.bytes, type := blob.type, fname := "template.png" } := by
  cases hsid : s.selectedTemplateId with
  | none => left; simp [resolveTemplateFile, h, hsid, jsTruthy]
  | some tid =>
    by_cases htid : tid = ""
    · left; simp [resolveTemplateFile, h, hsid, jsTruthy, htid]
    · cases hf : s.userTemplates.find? (fun t => t.template_id == tid) with
      | none => left; simp [resolveTemplateFile, h, hsid, jsTruthy, htid, hf]
      | some t =>
        cases fo with
        | failure => left; simp [resolveTemplateFile, h, hsid, jsTruthy, htid, hf]
        | success blob =>
            right
            exact ⟨blob, rfl, by simp [resolveTemplateFile, h, hsid, jsTruthy, htid, hf]⟩

/-! ## Claim theorems -/

/-- C4: for every sequence of selection actions (select local file,
select saved template, upload, remove), at most one template source is
active; selecting a saved template clears the local file, selecting a
local file clears the saved-template id, and the auto-selection done by
a successful upload clears the local file. -/
theorem selection_mutual_exclusivity :
    (∀ acts : List SelectionAction, exclusiveSelection (runSelection initState acts)) ∧
    (∀ s t, (handleSelectUserTemplate s t).selectedTemplate = none) ∧
    (∀ s f, (selectLocalFile s f).selectedTemplateId = none) ∧
    (∀ s f t,
      ((handleTemplateUpload s (some f) (UploadOutcome.success t)).1).selectedTemplate = none) :=
  ⟨fun acts => exclusiveSelection_run acts initState (Or.inl rfl),
   fun _ _ => rfl, fun _ _ => rfl, fun _ _ _ => rfl⟩

/-- C5: a successful upload prepends the returned record to the front of
the catalog snapshot and auto-selects it as the current saved-template
reference (clearing the local file). -/
theorem upload_success_prepends_and_selects (s : TemplateState) (f : FileData)
    (t : UserTemplate) :
    ((handleTemplateUpload s (some f) (UploadOutcome.success t)).1).userTemplates =
      t :: s.userTemplates ∧
    ((handleTemplateUpload s (some f) (UploadOutcome.success t)).1).selectedTemplateId =
      some t.template_id ∧
    ((handleTemplateUpload s (some f) (UploadOutcome.success t)).1).selectedTemplate =
      none :=
  ⟨rfl, rfl, rfl⟩

/-- C6: a failed upload surfaces an error toast and leaves the whole
selection state (snapshot, saved-template id, local file) exactly as it
was. -/
theorem upload_failure_preserves (s : TemplateState) (f : FileData)
    (msg : Option String) :
    (handleTemplateUpload s (some f) (UploadOutcome.failure msg)).1 = s ∧
    (handleTemplateUpload s (some f) (UploadOutcome.failure msg)).2 =
      [{ message := "模板上传失败: " ++ jsMessageOr msg "未知错误",
         type := "error" }] :=
  ⟨rfl, rfl⟩

/-- C9: `handleRemoveTemplate` resets the selection to none
unconditionally — both the saved-template id and the local file become
null for every prior state. -/
theorem remove_resets (s : TemplateState) :
    (handleRemoveTemplate s).selectedTemplateId = none ∧
    (handleRemoveTemplate s).selectedTemplate = none :=
  ⟨rfl, rfl⟩

/-- C1: for every submission that passes validation, whose project
initialization succeeds and whose project id is retrievable, the
navigation target is determined solely by the creation type: `idea` and
`outline` go to /project/(id)/outline and `description` goes to
/project/(id)/detail. -/
theorem submit_routing (tab : CreationType) (content : String)
    (s : TemplateState) (env : SubmitEnv) (pid : String)
    (hc : ¬ jsTrim content = "") (hio : env.initOutcome = InitOutcome.success)
    (hcp : env.currentProjectId = some pid) (hp : ¬ pid = "") :
    ((tab = CreationType.idea ∨ tab = CreationType.outline) →
      (handleSubmit tab content s env).result =
        SubmitResult.navigated ("/project/" ++ pid ++ "/outline")) ∧
    (tab = CreationType.description →
      (handleSubmit tab content s env).result =
        SubmitResult.navigated ("/project/" ++ pid ++ "/detail")) := by
  have h := handleSubmit_navigated_of tab content s env pid hc hio hcp hp
  constructor
  · rintro (rfl | rfl) <;> exact h
  · rintro rfl; exact h

/-- C1 witness: type idea, content "AI history talk", project id p123
navigates to /project/p123/outline. -/
theorem submit_routing_witness :
    (handleSubmit CreationType.idea "AI history talk" initState
      { fetchOutcome := FetchOutcome.failure, initOutcome := InitOutcome.success,
        currentProjectId := some "p123" }).result =
      SubmitResult.navigated "/project/p123/outline" :=
  (submit_routing CreationType.idea "AI history talk" initState
    { fetchOutcome := FetchOutcome.failure, initOutcome := InitOutcome.success,
      currentProjectId := some "p123" } "p123"
    (by decide) rfl rfl (by decide)).1 (Or.inl rfl)

/-- C2: whitespace-only content yields a validation-error toast and
returns with no fetch and no project-service call; content that is
non-empty after trimming always reaches the project-service call. -/
theorem submit_validation (tab : CreationType) (content : String)
    (s : TemplateState) (env : SubmitEnv) :
    (jsTrim content = "" →
      handleSubmit tab content s env =
        { fetchAttempted := false, initCall := none,
          result := SubmitResult.validationError
            { message := "请输入内容", type := "error" } }) ∧
    (¬ jsTrim content = "" →
      ((handleSubmit tab content s env).initCall).isSome = true) := by
  constructor
  · intro h; simp [handleSubmit, h]
  · intro h; rw [handleSubmit_initCall tab content s env h]; rfl

/-- C2 witness: whitespace-only content is rejected before any call;
content "hi" produces a project-service call. -/
theorem submit_validation_witness :
    handleSubmit CreationType.idea "   " initState
      { fetchOutcome := FetchOutcome.failure, initOutcome := InitOutcome.success,
        currentProjectId := some "p1" } =
      { fetchAttempted := false, initCall := none,
        result := SubmitResult.validationError
          { message := "请输入内容", type := "error" } } ∧
    ((handleSubmit CreationType.idea "hi" initState
      { fetchOutcome := FetchOutcome.failure, initOutcome := InitOutcome.success,
        currentProjectId := some "p1" }).initCall).isSome = true :=
  ⟨(submit_validation CreationType.idea "   " initState
      { fetchOutcome := FetchOutcome.failure, initOutcome := InitOutcome.success,
        currentProjectId := some "p1" }).1 (by decide),
   (submit_validation CreationType.idea "hi" initState
      { fetchOutcome := FetchOutcome.failure, initOutcome := InitOutcome.success,
        currentProjectId := some "p1" }).2 (by decide)⟩

/-- C3: with valid content and a selected saved template whose record is
not in the snapshot or whose image fetch throws, the project service is
still called with no template file, and the submission navigates whenever
initialization succeeds and the project id is retrievable. -/
theorem submit_resolution_degrades (tab : CreationType) (content : String)
    (s : TemplateState) (env : SubmitEnv) (tid : String)
    (hc : ¬ jsTrim content = "") (h1 : s.selectedTemplate = none)
    (h2 : s.selectedTemplateId = some tid)
    (h3 : s.userTemplates.find? (fun t => t.template_id == tid) = none ∨
          env.fetchOutcome = FetchOutcome.failure) :
    (handleSubmit tab content s env).initCall =
      some { creationType := tab.toTag, content := content, templateFile := none } ∧
    (∀ pid, env.initOutcome = InitOutcome.success →
      env.currentProjectId = some pid → ¬ pid = "" →
      ∃ target, (handleSubmit tab content s env).result =
        SubmitResult.navigated target) := by
  constructor
  · rw [handleSubmit_initCall tab content s env hc,
        resolve_none_of_fail s env.fetchOutcome tid h1 h2 h3]
  · intro pid hio hcp hp
    exact ⟨_, handleSubmit_navigated_of tab content s env pid hc hio hcp hp⟩

/-- C3 witness: selected saved template id "missing" with an empty
snapshot still calls the project service with no file and navigates. -/
theorem submit_resolution_degrades_witness :
    (handleSubmit CreationType.idea "hi"
      { selectedTemplate := none, selectedTemplateId := some "missing",
        userTemplates := [] }
      { fetchOutcome := FetchOutcome.failure, initOutcome := InitOutcome.success,
        currentProjectId := some "p9" }).initCall =
      some { creationType := "idea", content := "hi", templateFile := none } ∧
    ∃ target, (handleSubmit CreationType.idea "hi"
      { selectedTemplate := none, selectedTemplateId := some "missing",
        userTemplates := [] }
      { fetchOutcome := FetchOutcome.failure, initOutcome := InitOutcome.success,
        currentProjectId := some "p9" }).result =
      SubmitResult.navigated target := by
  have h := submit_resolution_degrades CreationType.idea "hi"
    { selectedTemplate := none, selectedTemplateId := some "missing",
      userTemplates := [] }
    { fetchOutcome := FetchOutcome.failure, initOutcome := InitOutcome.success,
      currentProjectId := some "p9" } "missing"
    (by decide) rfl rfl (Or.inl rfl)
  exact ⟨h.1, h.2 "p9" rfl rfl (by decide)⟩

/-- C7 counterexample: a saved template whose image reference ends in
.jpg is materialized with filename "template.png", not the
"template.jpg" that the `template.<ext>` rule of the spec demands. -/
theorem submit_filename_counterexample :
    (handleSubmit CreationType.idea "hello"
      { selectedTemplate := none, selectedTemplateId := some "t1",
        userTemplates := [{ template_id := "t1", name := "风格",
                            template_image_url := "templates/t1.jpg" }] }
      { fetchOutcome := FetchOutcome.success { bytes := [7, 8], type := "image/jpeg" },
        initOutcome := InitOutcome.success, currentProjectId := some "p1" }).initCall =
      some { creationType := "idea", content := "hello",
             templateFile := some
               { bytes := [7, 8], type := "image/jpeg", fname := "template.png" } } ∧
    specSyntheticFilename "templates/t1.jpg" = "template.jpg" ∧
    ¬ ("template.png" = "template.jpg") := by
  refine ⟨by decide, by decide, by decide⟩

/-- C7 (amended): when the record is found and the fetch succeeds, the
materialized asset wraps the fetched bytes with the fixed synthetic
filename "template.png" (regardless of the image extension) and the
content type reported by the fetch. -/
theorem submit_materialized_asset (tab : CreationType) (content : String)
    (s : TemplateState) (env : SubmitEnv) (tid : String) (t : UserTemplate)
    (blob : FetchedBlob)
    (hc : ¬ jsTrim content = "") (h1 : s.selectedTemplate = none)
    (h2 : s.selectedTemplateId = some tid) (htid : ¬ tid = "")
    (hfind : s.userTemplates.find? (fun u => u.template_id == tid) = some t)
    (hfo : env.fetchOutcome = FetchOutcome.success blob) :
    (handleSubmit tab content s env).initCall =
      some { creationType := tab.toTag, content := content,
             templateFile := some
               { bytes := blob.bytes, type := blob.type,
                 fname := "template.png" } } := by
  rw [handleSubmit_initCall tab content s env hc]
  have hres : (resolveTemplateFile s env.fetchOutcome).1 =
      some { bytes := blob.bytes, type := blob.type, fname := "template.png" } := by
    simp [resolveTemplateFile, h1, h2, jsTruthy, htid, hfind, hfo]
  rw [hres]

/-- C7 witness: a found record with a successful fetch yields the
png-named asset with the fetched content type. -/
theorem submit_materialized_asset_witness :
    (handleSubmit CreationType.outline "content here"
      { selectedTemplate := none, selectedTemplateId := some "t2",
        userTemplates := [{ template_id := "t2", name := "n",
                            template_image_url := "a.png" }] }
      { fetchOutcome := FetchOutcome.success { bytes := [1], type := "image/png" },
        initOutcome := InitOutcome.failure "boom",
        currentProjectId := none }).initCall =
      some { creationType := "outline", content := "content here",
             templateFile := some
               { bytes := [1], type := "image/png", fname := "template.png" } } :=
  submit_materialized_asset CreationType.outline "content here"
    { selectedTemplate := none, selectedTemplateId := some "t2",
      userTemplates := [{ template_id := "t2", name := "n",
                          template_image_url := "a.png" }] }
    { fetchOutcome := FetchOutcome.success { bytes := [1], type := "image/png" },
      initOutcome := InitOutcome.failure "boom", currentProjectId := none }
    "t2" { template_id := "t2", name := "n", template_image_url := "a.png" }
    { bytes := [1], type := "image/png" }
    (by decide) rfl rfl (by decide) (by decide) rfl

/-- C8: when initialization succeeds but the shared currentProjectId key
is absent, a generic failure toast is surfaced and no navigation
occurs. -/
theorem submit_missing_id (tab : CreationType) (content : String)
    (s : TemplateState) (env : SubmitEnv)
    (hc : ¬ jsTrim content = "") (hio : env.initOutcome = InitOutcome.success)
    (hcp : env.currentProjectId = none) :
    (handleSubmit tab content s env).result =
      SubmitResult.projectIdMissing { message := "项目创建失败", type := "error" } ∧
    ∀ target, ¬ (handleSubmit tab content s env).result =
      SubmitResult.navigated target := by
  obtain ⟨fo, io, cp⟩ := env
  simp only at hio hcp
  subst hio; subst hcp
  have hres : (handleSubmit tab content ⟨s.selectedTemplate, s.selectedTemplateId,
      s.userTemplates⟩ ⟨fo, InitOutcome.success, none⟩).result =
      SubmitResult.projectIdMissing { message := "项目创建失败", type := "error" } := by
    simp [handleSubmit, hc]
  constructor
  · exact hres
  · intro target h
    rw [hres] at h
    exact SubmitResult.noConfusion h

/-- C8 witness: absent project id after a successful initialization
yields the generic failure toast. -/
theorem submit_missing_id_witness :
    (handleSubmit CreationType.description "x" initState
      { fetchOutcome := FetchOutcome.failure, initOutcome := InitOutcome.success,
        currentProjectId := none }).result =
      SubmitResult.projectIdMissing
        { message := "项目创建失败", type := "error" } :=
  (submit_missing_id CreationType.description "x" initState
    { fetchOutcome := FetchOutcome.failure, initOutcome := InitOutcome.success,
      currentProjectId := none } (by decide) rfl rfl).1

/-- C10: no operation of the screen ever sets the local-file selection,
so after every action sequence it is still null, and the template file
passed to the project service is always either absent or freshly built
from the fetched blob — never directly-held local bytes. -/
theorem localfile_variant_unreachable (acts : List ScreenAction)
    (tab : CreationType) (content : String) (env : SubmitEnv) :
    (runScreen initState acts).selectedTemplate = none ∧
    assetFromFetchOrAbsent env
      (handleSubmit tab content (runScreen initState acts) env).initCall := by
  have hloc : (runScreen initState acts).selectedTemplate = none :=
    screen_local_none_run acts initState rfl
  refine ⟨hloc, ?_⟩
  by_cases hc : jsTrim content = ""
  · simp [handleSubmit, hc, assetFromFetchOrAbsent]
  · rw [handleSubmit_initCall tab content _ env hc]
    rcases resolve_from_fetch (runScreen initState acts) env.fetchOutcome hloc with
      h | ⟨blob, hfo, h⟩
    · exact Or.inl h
    · exact Or.inr ⟨blob, hfo, h⟩

end BananaSlides
